import Mathlib

/-
Shallow embedding of the QEMU arcan-shmif display driver (ui/arcan.c):
the pixel blit engine, the event pump and input translator, the
display-hint state machine, the pressed-key reset helper, and the display
initialization/enumeration loop.  Machine integers are modelled as
Nat/Int; byte values as Fin 256; the per-display pressed-key table as a
function Fin 256 → Bool; calls into QEMU collaborators (virtual-input
queue, run-state control, shmif transport) as explicit action lists.
-/

namespace Arcan

/-! ## Pixel formats and the format-compatibility check -/

/-- Modelled from the external pixman.h macro
PIXMAN_FORMAT(bpp,type,a,r,g,b) = (bpp<<24)|(type<<16)|(a<<12)|(r<<8)|(g<<4)|b,
written with multiplication since all fields fit their slots. -/
def pixmanFormat (bpp t a r g b : Nat) : Nat :=
  bpp * 2 ^ 24 + t * 2 ^ 16 + a * 2 ^ 12 + r * 2 ^ 8 + g * 2 ^ 4 + b

/-- Modelled from pixman.h: PIXMAN_TYPE_ARGB. -/
def PIXMAN_TYPE_ARGB : Nat := 2
/-- Modelled from pixman.h: PIXMAN_TYPE_ABGR. -/
def PIXMAN_TYPE_ABGR : Nat := 3

def PIXMAN_b8g8r8x8 : Nat := pixmanFormat 32 PIXMAN_TYPE_ABGR 0 8 8 8
def PIXMAN_b8g8r8a8 : Nat := pixmanFormat 32 PIXMAN_TYPE_ABGR 8 8 8 8
def PIXMAN_x8r8g8b8 : Nat := pixmanFormat 32 PIXMAN_TYPE_ARGB 0 8 8 8
def PIXMAN_a8r8g8b8 : Nat := pixmanFormat 32 PIXMAN_TYPE_ARGB 8 8 8 8
/-- A 16-bit format, used only to exhibit a rejected tag. -/
def PIXMAN_r5g6b5 : Nat := pixmanFormat 16 PIXMAN_TYPE_ARGB 0 5 6 5

/-- arcan_check_format from ui/arcan.c: accept exactly the four 32-bit
BGR/RGB orderings. -/
def arcan_check_format (format : Nat) : Bool :=
  format == PIXMAN_b8g8r8x8 || format == PIXMAN_b8g8r8a8
    || format == PIXMAN_x8r8g8b8 || format == PIXMAN_a8r8g8b8

/-! ## The repack blit (arcan_update, BLIT_DIRECT / BLIT_REPACK path) -/

/-- Modelled from the external arcan_shmif header: the default SHMIF_RGBA
packing (a<<24)|(b<<16)|(g<<8)|r, written with addition since each
component is reduced to a byte. -/
def SHMIF_RGBA (r g b a : Nat) : Nat :=
  a % 256 * 16777216 + b % 256 * 65536 + g % 256 * 256 + r % 256

/-- Modelled from the spec: the inverse of the destination native pixel
encoding, recovering (r, g, b, a) from a packed pixel. -/
def shmif_decode (p : Nat) : Nat × Nat × Nat × Nat :=
  (p % 256, p / 256 % 256, p / 65536 % 256, p / 16777216 % 256)

/-- The inner pixel loop of arcan_update for BLIT_DIRECT/BLIT_REPACK:
source bytes at sp = data + y*stride + x*4 advancing by stride per row,
read in blue-green-red-padding order, destination pixels at
dp = vidp + y*pitch advancing by pitch per row.  Each list element is
(destination pixel index, packed value written there). -/
def blit_repack (src : Nat → Fin 256) (stride pitch : Nat)
    (x y w h : Nat) : List (Nat × Nat) :=
  (List.range h).flatMap fun cy =>
    (List.range w).map fun cx =>
      (y * pitch + cy * pitch + cx,
       SHMIF_RGBA (src (y * stride + x * 4 + cy * stride + cx * 4 + 2)).val
                  (src (y * stride + x * 4 + cy * stride + cx * 4 + 1)).val
                  (src (y * stride + x * 4 + cy * stride + cx * 4)).val
                  255)

inductive Blitmode
  | share
  | direct
  | repack
  | txpack
  deriving DecidableEq

/-- Result of one arcan_update call: the pixel writes performed, the dirty
rectangle recorded on the segment as (x1, y1, x2, y2), and whether a
SHMIF_SIGVID signal was raised. -/
structure UpdateResult where
  writes : List (Nat × Nat)
  dirty : Nat × Nat × Nat × Nat
  signal : Bool
  deriving DecidableEq

/-- The body of arcan_update after region normalization: blit according to
the mode (BLIT_DIRECT and BLIT_REPACK share one code block; BLIT_SHARE and
BLIT_TXPACK write no pixels), record the dirty rectangle, signal video. -/
def arcan_update_core (mode : Blitmode) (src : Nat → Fin 256)
    (stride pitch : Nat) (x y w h : Nat) : UpdateResult :=
  { writes :=
      match mode with
      | Blitmode.direct => blit_repack src stride pitch x y w h
      | Blitmode.repack => blit_repack src stride pitch x y w h
      | _ => []
    dirty := (x, y, x + w, y + h)
    signal := true }

/-- arcan_update from ui/arcan.c: when the configured video-buffer count
vbufc exceeds 1, the requested sub-region is replaced by the full frame
(0, 0, dpyW, dpyH) before blitting and dirty-rect recording. -/
def arcan_update (mode : Blitmode) (vbufc : Nat) (dpyW dpyH : Nat)
    (src : Nat → Fin 256) (stride pitch : Nat) (x y w h : Nat) :
    UpdateResult :=
  if vbufc > 1 then
    arcan_update_core mode src stride pitch 0 0 dpyW dpyH
  else
    arcan_update_core mode src stride pitch x y w h

/-! ## Theorems: format check (C8) -/

/-- C8: arcan_check_format returns true for exactly the four 32-bit
BGR/RGB format tags b8g8r8x8, b8g8r8a8, x8r8g8b8, a8r8g8b8 (which are
four pairwise distinct tags) and false for every other format tag. -/
theorem arcan_check_format_exact (f : Nat) :
    (arcan_check_format f = true ↔
      f = PIXMAN_b8g8r8x8 ∨ f = PIXMAN_b8g8r8a8
        ∨ f = PIXMAN_x8r8g8b8 ∨ f = PIXMAN_a8r8g8b8)
    ∧ PIXMAN_b8g8r8x8 ≠ PIXMAN_b8g8r8a8
    ∧ PIXMAN_b8g8r8x8 ≠ PIXMAN_x8r8g8b8
    ∧ PIXMAN_b8g8r8x8 ≠ PIXMAN_a8r8g8b8
    ∧ PIXMAN_b8g8r8a8 ≠ PIXMAN_x8r8g8b8
    ∧ PIXMAN_b8g8r8a8 ≠ PIXMAN_a8r8g8b8
    ∧ PIXMAN_x8r8g8b8 ≠ PIXMAN_a8r8g8b8
    ∧ arcan_check_format PIXMAN_r5g6b5 = false := by
  refine ⟨?_, by decide, by decide, by decide, by decide, by decide,
    by decide, by decide⟩
  simp [arcan_check_format, or_assoc]

/-! ## Theorems: repack blit is pure per-pixel (C4) -/

/-- C4: the repack blit is a pure per-pixel function.  For every row cy < h
and column cx < w the destination pixel at index (y+cy)*pitch + cx receives
encode(r, g, b, 255) where r, g, b are the source bytes at offsets +2, +1,
+0 of the 4-byte pixel at byte address (y+cy)*stride + (x+cx)*4 (source and
destination row strides honored independently); conversely every write of
the blit has this form; and decode(encode(r, g, b, 255)) = (r, g, b, 255)
for all 8-bit r, g, b. -/
theorem blit_repack_pointwise (src : Nat → Fin 256) (stride pitch x y w h : Nat) :
    (∀ cy cx, cy < h → cx < w →
      ((y + cy) * pitch + cx,
       SHMIF_RGBA (src ((y + cy) * stride + (x + cx) * 4 + 2)).val
                  (src ((y + cy) * stride + (x + cx) * 4 + 1)).val
                  (src ((y + cy) * stride + (x + cx) * 4)).val 255)
        ∈ blit_repack src stride pitch x y w h)
    ∧ (∀ p ∈ blit_repack src stride pitch x y w h, ∃ cy cx, cy < h ∧ cx < w ∧
        p = ((y + cy) * pitch + cx,
             SHMIF_RGBA (src ((y + cy) * stride + (x + cx) * 4 + 2)).val
                        (src ((y + cy) * stride + (x + cx) * 4 + 1)).val
                        (src ((y + cy) * stride + (x + cx) * 4)).val 255))
    ∧ (∀ r g b : Fin 256,
        shmif_decode (SHMIF_RGBA r.val g.val b.val 255) =
          (r.val, g.val, b.val, 255)) := by
  refine ⟨?_, ?_, ?_⟩
  · intro cy cx hcy hcx
    simp only [blit_repack, List.mem_flatMap, List.mem_map, List.mem_range]
    refine ⟨cy, hcy, cx, hcx, ?_⟩
    ring_nf
  · intro p hp
    simp only [blit_repack, List.mem_flatMap, List.mem_map, List.mem_range] at hp
    obtain ⟨cy, hcy, cx, hcx, hp⟩ := hp
    refine ⟨cy, cx, hcy, hcx, ?_⟩
    rw [← hp]
    ring_nf
  · intro r g b
    have hr := r.isLt
    have hg := g.isLt
    have hb := b.isLt
    simp only [shmif_decode, SHMIF_RGBA, Prod.mk.injEq]
    refine ⟨?_, ?_, ?_, ?_⟩ <;> omega

/-- Witness for C4 at a concrete pixel. -/
theorem blit_repack_pointwise_witness :
    ((0 + 0) * 2 + 0,
     SHMIF_RGBA ((fun _ => (7 : Fin 256)) ((0 + 0) * 8 + (0 + 0) * 4 + 2)).val
                ((fun _ => (7 : Fin 256)) ((0 + 0) * 8 + (0 + 0) * 4 + 1)).val
                ((fun _ => (7 : Fin 256)) ((0 + 0) * 8 + (0 + 0) * 4)).val 255)
      ∈ blit_repack (fun _ => (7 : Fin 256)) 8 2 0 0 1 1 :=
  (blit_repack_pointwise (fun _ => (7 : Fin 256)) 8 2 0 0 1 1).1 0 0
    (by decide) (by decide)

/-! ## Theorems: full-frame substitution under multi-buffering (C6) -/

/-- C6: when the configured video-buffer count is greater than 1,
arcan_update blits and records exactly what the full-frame call
(0, 0, dpyW, dpyH) would, regardless of the requested sub-region, and the
recorded dirty rectangle is (0, 0, dpyW, dpyH); when the count is 1 the
requested sub-region is used as given, both for the recorded dirty
rectangle and (in the repack/direct modes) for the blitted writes. -/
theorem arcan_update_vbufc_spec (mode : Blitmode) (vbufc dpyW dpyH : Nat)
    (src : Nat → Fin 256) (stride pitch x y w h : Nat) :
    (vbufc > 1 →
      arcan_update mode vbufc dpyW dpyH src stride pitch x y w h =
        arcan_update mode vbufc dpyW dpyH src stride pitch 0 0 dpyW dpyH
      ∧ (arcan_update mode vbufc dpyW dpyH src stride pitch x y w h).dirty =
          (0, 0, dpyW, dpyH))
    ∧ (vbufc = 1 →
      (arcan_update mode vbufc dpyW dpyH src stride pitch x y w h).dirty =
        (x, y, x + w, y + h)
      ∧ ((mode = Blitmode.repack ∨ mode = Blitmode.direct) →
         (arcan_update mode vbufc dpyW dpyH src stride pitch x y w h).writes =
           blit_repack src stride pitch x y w h)) := by
  constructor
  · intro hv
    simp only [arcan_update, if_pos hv]
    exact ⟨trivial, by simp [arcan_update_core]⟩
  · intro hv
    subst hv
    rw [arcan_update, if_neg (by omega)]
    refine ⟨by simp [arcan_update_core], ?_⟩
    rintro (hm | hm) <;> subst hm <;> simp [arcan_update_core]

/-- Witness for C6 at concrete inputs: with vbufc = 2 the requested
sub-region (3, 4, 1, 1) is replaced by the full frame, and with vbufc = 1
it is recorded as given. -/
theorem arcan_update_vbufc_spec_witness :
    (arcan_update Blitmode.repack 2 6 5 (fun _ => (0 : Fin 256)) 24 6 3 4 1 1 =
       arcan_update Blitmode.repack 2 6 5 (fun _ => (0 : Fin 256)) 24 6 0 0 6 5
     ∧ (arcan_update Blitmode.repack 2 6 5 (fun _ => (0 : Fin 256)) 24 6 3 4 1 1).dirty =
         (0, 0, 6, 5))
    ∧ ((arcan_update Blitmode.repack 1 6 5 (fun _ => (0 : Fin 256)) 24 6 3 4 1 1).dirty =
         (3, 4, 3 + 1, 4 + 1)
       ∧ ((Blitmode.repack = Blitmode.repack ∨ Blitmode.repack = Blitmode.direct) →
          (arcan_update Blitmode.repack 1 6 5 (fun _ => (0 : Fin 256)) 24 6 3 4 1 1).writes =
            blit_repack (fun _ => (0 : Fin 256)) 24 6 3 4 1 1)) :=
  ⟨(arcan_update_vbufc_spec Blitmode.repack 2 6 5 (fun _ => (0 : Fin 256)) 24 6 3 4 1 1).1
      (by decide),
   (arcan_update_vbufc_spec Blitmode.repack 1 6 5 (fun _ => (0 : Fin 256)) 24 6 3 4 1 1).2
      rfl⟩

/-! ## Events, collaborator actions, and per-display state -/

/-- Modelled from QEMU's ShutdownCause enum (only the causes the driver
uses). -/
inductive ShutdownCause
  | hostUi
  | guestReset
  deriving DecidableEq

/-- One call into a collaborator of the bridge: the virtual-input queue
(qemu_input_*), run-state control (qemu_system_*_request), or the shmif
transport (dirty-rectangle store and SHMIF_SIGVID signal). -/
inductive Action
  | sendKeyQcode (qcode : Nat) (active : Bool)
  | queueBtn (btn : Nat) (active : Bool)
  | queueRel (axis : Nat) (value : Int)
  | queueAbs (axis : Nat) (value lo hi : Int)
  | inputSync
  | shutdownRequest (cause : ShutdownCause)
  | resetRequest (cause : ShutdownCause)
  | setDirty (x1 y1 x2 y2 : Nat)
  | signalVideo
  deriving DecidableEq

/-- Modelled from QEMU ui/console.h: GUI_REFRESH_INTERVAL_DEFAULT. -/
def GUI_REFRESH_INTERVAL_DEFAULT : Nat := 30

/-- The per-display state the event handlers touch: the hidden flag, the
display-change-listener refresh interval (update_displaychangelistener),
and the 256-entry pressed-key table kbd_statetbl. -/
structure DpyState where
  hidden : Bool
  interval : Nat
  kbd : Fin 256 → Bool

/-! ## Pressed-key reset (reset_dpykbd) -/

/-- The loop body of reset_dpykbd over the remaining table indices: for
each index with a true entry, emit one key-release with the
table-translated code and clear the entry. -/
def reset_loop (xlate : Fin 256 → Nat) :
    List (Fin 256) → (Fin 256 → Bool) → List Action × (Fin 256 → Bool)
  | [], tbl => ([], tbl)
  | i :: rest, tbl =>
      if tbl i then
        let r := reset_loop xlate rest (Function.update tbl i false)
        (Action.sendKeyQcode (xlate i) false :: r.1, r.2)
      else
        reset_loop xlate rest tbl

/-- reset_dpykbd from ui/arcan.c: iterate i = 0..255 over kbd_statetbl. -/
def reset_dpykbd (xlate : Fin 256 → Nat) (tbl : Fin 256 → Bool) :
    List Action × (Fin 256 → Bool) :=
  reset_loop xlate (List.finRange 256) tbl

theorem reset_loop_table (xlate : Fin 256 → Nat) :
    ∀ (l : List (Fin 256)) (tbl : Fin 256 → Bool) (j : Fin 256),
      (reset_loop xlate l tbl).2 j = if j ∈ l then false else tbl j := by
  intro l
  induction l with
  | nil => intro tbl j; simp [reset_loop]
  | cons i rest ih =>
      intro tbl j
      by_cases hi : tbl i
      · rw [reset_loop, if_pos hi]
        rw [ih (Function.update tbl i false) j]
        by_cases hjr : j ∈ rest
        · simp [hjr]
        · by_cases hji : j = i
          · subst hji
            simp [hjr, Function.update]
          · simp [hjr, hji, Function.update]
      · rw [reset_loop, if_neg hi]
        rw [ih tbl j]
        by_cases hjr : j ∈ rest
        · simp [hjr]
        · by_cases hji : j = i
          · subst hji
            simp only [Bool.not_eq_true] at hi
            simp [hjr, hi]
          · simp [hjr, hji]

theorem reset_loop_events (xlate : Fin 256 → Nat) :
    ∀ (l : List (Fin 256)), l.Nodup → ∀ (tbl : Fin 256 → Bool),
      (reset_loop xlate l tbl).1 =
        (l.filter (fun i => tbl i)).map
          (fun i => Action.sendKeyQcode (xlate i) false) := by
  intro l
  induction l with
  | nil => intro _ tbl; simp [reset_loop]
  | cons i rest ih =>
      intro hnd tbl
      obtain ⟨hi_rest, hrest⟩ := List.nodup_cons.mp hnd
      by_cases hi : tbl i
      · rw [reset_loop, if_pos hi]
        have hfc : rest.filter (fun j => Function.update tbl i false j) =
            rest.filter (fun j => tbl j) := by
          apply List.filter_congr
          intro j hj
          have hji : j ≠ i := fun h => hi_rest (h ▸ hj)
          simp [Function.update, hji]
        simp only [ih hrest (Function.update tbl i false), hfc,
          List.filter_cons, hi, if_pos, List.map_cons]
      · rw [reset_loop, if_neg hi]
        rw [ih hrest tbl]
        simp only [List.filter_cons]
        simp only [Bool.not_eq_true] at hi
        simp [hi]

/-- C5: one call to reset_dpykbd emits exactly the key releases of the
pressed subset S — one event per pressed index, in index order, each with
that index's table-translated code (so |S| events in total, each index
exactly once since the index list has no duplicates) — and leaves every
entry of the table false; a second call on the resulting table emits zero
events. -/
theorem reset_dpykbd_spec (xlate : Fin 256 → Nat) (tbl : Fin 256 → Bool) :
    (reset_dpykbd xlate tbl).1 =
      ((List.finRange 256).filter (fun i => tbl i)).map
        (fun i => Action.sendKeyQcode (xlate i) false)
    ∧ (reset_dpykbd xlate tbl).1.length =
        ((List.finRange 256).filter (fun i => tbl i)).length
    ∧ ((List.finRange 256).filter (fun i => tbl i)).Nodup
    ∧ (∀ j, (reset_dpykbd xlate tbl).2 j = false)
    ∧ (reset_dpykbd xlate (reset_dpykbd xlate tbl).2).1 = [] := by
  have hev := reset_loop_events xlate (List.finRange 256)
    (List.nodup_finRange 256) tbl
  have htbl : ∀ j, (reset_dpykbd xlate tbl).2 j = false := by
    intro j
    rw [reset_dpykbd, reset_loop_table xlate (List.finRange 256) tbl j]
    simp [List.mem_finRange]
  refine ⟨hev, by rw [reset_dpykbd, hev, List.length_map],
    (List.nodup_finRange 256).filter _, htbl, ?_⟩
  have h2 := reset_loop_events xlate (List.finRange 256)
    (List.nodup_finRange 256) (reset_dpykbd xlate tbl).2
  rw [reset_dpykbd, h2]
  have : ((List.finRange 256).filter
      (fun i => (reset_dpykbd xlate tbl).2 i)) = [] := by
    apply List.filter_eq_nil_iff.mpr
    intro j _
    simp [htbl j]
  rw [this]
  rfl

/-! ## Inbound device events (input_event) -/

/-- Modelled from the external arcan_shmif header: EVENT_IDEVKIND values. -/
inductive DevKind
  | keyboard
  | mouse
  | gamedev
  | touchdev
  | led
  deriving DecidableEq

/-- The payload union of an arcan_ioevent, discriminated by datatype.
Only the fields ui/arcan.c reads are modelled. -/
inductive IOData
  | translated (scancode : Fin 256) (active : Bool)
  | digital (active : Bool)
  | analog (gotrel : Bool) (axisval0 : Int)
  | touch
  deriving DecidableEq

structure IOEvent where
  devkind : DevKind
  subid : Nat
  data : IOData
  deriving DecidableEq

/-- Modelled from the external arcan_shmif header: mouse button index
constants (distinct small naturals; only their distinctness matters). -/
def MBTN_LEFT_IND : Nat := 1
def MBTN_MIDDLE_IND : Nat := 2
def MBTN_RIGHT_IND : Nat := 3
def MBTN_WHEEL_UP_IND : Nat := 4
def MBTN_WHEEL_DOWN_IND : Nat := 5

/-- Modelled from QEMU's InputButton enum. -/
def INPUT_BUTTON_LEFT : Nat := 0
def INPUT_BUTTON_MIDDLE : Nat := 1
def INPUT_BUTTON_RIGHT : Nat := 2
def INPUT_BUTTON_WHEEL_UP : Nat := 3
def INPUT_BUTTON_WHEEL_DOWN : Nat := 4

/-- Modelled from QEMU's InputAxis enum. -/
def INPUT_AXIS_X : Nat := 0
def INPUT_AXIS_Y : Nat := 1

/-- The subid switch of the EVENT_IDATATYPE_DIGITAL branch of input_event:
the five recognized button indices map to virtual mouse buttons, the
default case reports not-handled. -/
def mbtn_lookup (subid : Nat) : Option Nat :=
  if subid = MBTN_LEFT_IND then some INPUT_BUTTON_LEFT
  else if subid = MBTN_MIDDLE_IND then some INPUT_BUTTON_MIDDLE
  else if subid = MBTN_RIGHT_IND then some INPUT_BUTTON_RIGHT
  else if subid = MBTN_WHEEL_UP_IND then some INPUT_BUTTON_WHEEL_UP
  else if subid = MBTN_WHEEL_DOWN_IND then some INPUT_BUTTON_WHEEL_DOWN
  else none

/-- input_event from ui/arcan.c.  Returns (handled flag, updated
pressed-key table, actions queued to the virtual input collaborator).
Note the translated-key branch falls through to the final return false in
the source, so it reports not-handled; conW/conH are the segment surface
dimensions used as absolute-axis ceilings. -/
def input_event (xlate : Fin 256 → Nat) (conW conH : Nat)
    (kbd : Fin 256 → Bool) (iev : IOEvent) :
    Bool × (Fin 256 → Bool) × List Action :=
  if iev.devkind ≠ DevKind.keyboard ∧ iev.devkind ≠ DevKind.mouse then
    (false, kbd, [])
  else
    match iev.data with
    | IOData.translated scancode active =>
        (false, Function.update kbd scancode active,
         [Action.sendKeyQcode (xlate scancode) active])
    | IOData.digital active =>
        match mbtn_lookup iev.subid with
        | some btnout => (true, kbd, [Action.queueBtn btnout active])
        | none => (false, kbd, [])
    | IOData.analog gotrel av =>
        let did := if iev.subid = 0 then INPUT_AXIS_X else INPUT_AXIS_Y
        if gotrel then
          (true, kbd, [Action.queueRel did av])
        else
          (true, kbd, [Action.queueAbs did av 0
            (if iev.subid = 0 then (conW : Int) else (conH : Int))])
    | IOData.touch => (false, kbd, [])

/-! ## Inbound system/control events (system_event) -/

/-- Modelled from the external arcan_shmif header: TARGET_COMMAND kinds
ui/arcan.c dispatches on. -/
inductive TgtKind
  | exit
  | reset
  | newsegment
  | pause
  | unpause
  | setiodev
  | store
  | restore
  | displayhint
  | outputhint
  | deviceNode
  | unknown
  deriving DecidableEq

/-- An arcan_tgtevent restricted to the fields ui/arcan.c reads:
ioevs[0].iv (reset sub-kind) and ioevs[2].iv (display-hint flag word,
modelled as its non-negative bit pattern). -/
structure TgtEvent where
  kind : TgtKind
  iv0 : Int
  iv2 : Nat
  deriving DecidableEq

/-- system_event from ui/arcan.c.  Returns the collaborator actions issued
and the updated per-display state.  TARGET_COMMAND_NEWSEGMENT, PAUSE,
UNPAUSE, SETIODEV, STORE, RESTORE, OUTPUTHINT, DEVICE_NODE and unknown
kinds have empty bodies in the source (PAUSE/UNPAUSE only branch on
runstate_is_running with no effect). -/
def system_event (xlate : Fin 256 → Nat) (conW conH : Nat)
    (st : DpyState) (iev : TgtEvent) : List Action × DpyState :=
  match iev.kind with
  | TgtKind.exit => ([Action.shutdownRequest ShutdownCause.hostUi], st)
  | TgtKind.reset =>
      ((if iev.iv0 = 0 ∨ iev.iv0 = 1 then
          [Action.shutdownRequest ShutdownCause.guestReset]
        else []) ++
        [Action.setDirty 0 0 conW conH, Action.signalVideo], st)
  | TgtKind.displayhint =>
      if iev.iv2 &&& 128 = 0 then
        let st1 :=
          if iev.iv2 &&& 2 ≠ 0 then
            { st with hidden := true, interval := 500 }
          else if st.hidden then
            { st with hidden := false, interval := GUI_REFRESH_INTERVAL_DEFAULT }
          else st
        if iev.iv2 &&& 4 ≠ 0 then
          ((reset_dpykbd xlate st1.kbd).1,
           { st1 with kbd := (reset_dpykbd xlate st1.kbd).2 })
        else
          ([], st1)
      else
        ([], st)
  | _ => ([], st)

/-! ## The per-tick event pump (arcan_refresh) -/

/-- One event drained from the segment queue, discriminated by category
(EVENT_IO, EVENT_TARGET, anything else is ignored). -/
inductive Event
  | ioev (e : IOEvent)
  | tgtev (e : TgtEvent)
  | otherev

/-- The handled flag input_event reports, as a function of the event alone
(the source never consults segment state for it). -/
def io_handled (iev : IOEvent) : Bool :=
  if iev.devkind ≠ DevKind.keyboard ∧ iev.devkind ≠ DevKind.mouse then false
  else
    match iev.data with
    | IOData.translated _ _ => false
    | IOData.digital _ => (mbtn_lookup iev.subid).isSome
    | IOData.analog _ _ => true
    | IOData.touch => false

def ev_handled : Event → Bool
  | Event.ioev e => io_handled e
  | _ => false

/-- The while(arcan_shmif_poll) loop of arcan_refresh: device events fold
their handled flag into queue_flush, system events update segment state. -/
def refresh_loop (xlate : Fin 256 → Nat) (cw ch : Nat) :
    List Event → Bool → DpyState → List Action →
      Bool × DpyState × List Action
  | [], qf, st, acc => (qf, st, acc)
  | Event.ioev e :: rest, qf, st, acc =>
      let r := input_event xlate cw ch st.kbd e
      refresh_loop xlate cw ch rest (qf || r.1) { st with kbd := r.2.1 }
        (acc ++ r.2.2)
  | Event.tgtev e :: rest, qf, st, acc =>
      let r := system_event xlate cw ch st e
      refresh_loop xlate cw ch rest qf r.2 (acc ++ r.1)
  | Event.otherev :: rest, qf, st, acc =>
      refresh_loop xlate cw ch rest qf st acc

/-- arcan_refresh from ui/arcan.c: drain the queue, then issue a single
qemu_input_event_sync when queue_flush is set.  Returns (queue_flush,
final segment state, all collaborator actions in order). -/
def arcan_refresh (xlate : Fin 256 → Nat) (cw ch : Nat)
    (st : DpyState) (events : List Event) :
    Bool × DpyState × List Action :=
  let r := refresh_loop xlate cw ch events false st []
  (r.1, r.2.1, r.2.2 ++ if r.1 then [Action.inputSync] else [])

/-- A concrete all-released, visible display state for witnesses. -/
def dpyState0 : DpyState :=
  { hidden := false, interval := GUI_REFRESH_INTERVAL_DEFAULT,
    kbd := fun _ => false }

/-- A concrete hidden display state for witnesses. -/
def dpyStateHidden : DpyState :=
  { hidden := true, interval := 500, kbd := fun _ => false }

theorem input_event_fst (xlate : Fin 256 → Nat) (cw ch : Nat)
    (kbd : Fin 256 → Bool) (iev : IOEvent) :
    (input_event xlate cw ch kbd iev).1 = io_handled iev := by
  rw [input_event, io_handled]
  by_cases h : iev.devkind ≠ DevKind.keyboard ∧ iev.devkind ≠ DevKind.mouse
  · rw [if_pos h, if_pos h]
  · rw [if_neg h, if_neg h]
    cases iev.data with
    | translated sc a => rfl
    | digital a => cases hm : mbtn_lookup iev.subid <;> simp [hm]
    | analog g av => cases g <;> simp
    | touch => rfl

theorem input_event_no_sync (xlate : Fin 256 → Nat) (cw ch : Nat)
    (kbd : Fin 256 → Bool) (iev : IOEvent) :
    Action.inputSync ∉ (input_event xlate cw ch kbd iev).2.2 := by
  rw [input_event]
  by_cases h : iev.devkind ≠ DevKind.keyboard ∧ iev.devkind ≠ DevKind.mouse
  · rw [if_pos h]
    simp
  · rw [if_neg h]
    cases iev.data with
    | translated sc a => simp
    | digital a => cases hm : mbtn_lookup iev.subid <;> simp [hm]
    | analog g av => cases g <;> simp
    | touch => simp

theorem reset_dpykbd_no_sync (xlate : Fin 256 → Nat) (tbl : Fin 256 → Bool) :
    Action.inputSync ∉ (reset_dpykbd xlate tbl).1 := by
  rw [reset_dpykbd,
    reset_loop_events xlate (List.finRange 256) (List.nodup_finRange 256) tbl]
  intro h
  obtain ⟨i, _, hi⟩ := List.mem_map.mp h
  exact absurd hi (by simp)

theorem system_event_no_sync (xlate : Fin 256 → Nat) (cw ch : Nat)
    (st : DpyState) (iev : TgtEvent) :
    Action.inputSync ∉ (system_event xlate cw ch st iev).1 := by
  obtain ⟨k, iv0, iv2⟩ := iev
  cases k <;> simp only [system_event]
  case exit => simp
  case reset => split_ifs <;> simp
  case displayhint =>
    by_cases h128 : iv2 &&& 128 = 0
    · by_cases h4 : iv2 &&& 4 ≠ 0
      · simp only [if_pos h128, if_pos h4]
        exact reset_dpykbd_no_sync _ _
      · simp only [if_pos h128, if_neg h4]
        exact List.not_mem_nil _
    · simp only [if_neg h128]
      exact List.not_mem_nil _
  all_goals simp

theorem refresh_loop_fst (xlate : Fin 256 → Nat) (cw ch : Nat) :
    ∀ (events : List Event) (qf : Bool) (st : DpyState) (acc : List Action),
      (refresh_loop xlate cw ch events qf st acc).1 =
        (qf || events.any ev_handled) := by
  intro events
  induction events with
  | nil => intro qf st acc; simp [refresh_loop]
  | cons e rest ih =>
      intro qf st acc
      cases e with
      | ioev io =>
          rw [refresh_loop, ih, input_event_fst]
          simp [ev_handled, Bool.or_assoc]
      | tgtev tg =>
          rw [refresh_loop, ih]
          simp [ev_handled]
      | otherev =>
          rw [refresh_loop, ih]
          simp [ev_handled]

theorem refresh_loop_acc (xlate : Fin 256 → Nat) (cw ch : Nat) :
    ∀ (events : List Event) (qf : Bool) (st : DpyState) (acc : List Action),
      ∃ tail, (refresh_loop xlate cw ch events qf st acc).2.2 = acc ++ tail
        ∧ Action.inputSync ∉ tail := by
  intro events
  induction events with
  | nil => intro qf st acc; exact ⟨[], by simp [refresh_loop], by simp⟩
  | cons e rest ih =>
      intro qf st acc
      cases e with
      | ioev io =>
          obtain ⟨tail, ht, hs⟩ := ih (qf || (input_event xlate cw ch st.kbd io).1)
            { st with kbd := (input_event xlate cw ch st.kbd io).2.1 }
            (acc ++ (input_event xlate cw ch st.kbd io).2.2)
          refine ⟨(input_event xlate cw ch st.kbd io).2.2 ++ tail, ?_, ?_⟩
          · rw [refresh_loop, ht, List.append_assoc]
          · intro hmem
            rcases List.mem_append.mp hmem with hmem | hmem
            · exact input_event_no_sync xlate cw ch st.kbd io hmem
            · exact hs hmem
      | tgtev tg =>
          obtain ⟨tail, ht, hs⟩ := ih qf (system_event xlate cw ch st tg).2
            (acc ++ (system_event xlate cw ch st tg).1)
          refine ⟨(system_event xlate cw ch st tg).1 ++ tail, ?_, ?_⟩
          · rw [refresh_loop, ht, List.append_assoc]
          · intro hmem
            rcases List.mem_append.mp hmem with hmem | hmem
            · exact system_event_no_sync xlate cw ch st tg hmem
            · exact hs hmem
      | otherev =>
          obtain ⟨tail, ht, hs⟩ := ih qf st acc
          exact ⟨tail, by rw [refresh_loop, ht], hs⟩

/-! ## Theorems: pump cycle and input sync (C1) -/

/-- C1 (counterexample to the claim as stated): a pump cycle whose only
device event is a translated-key event delivers the key to the virtual
input queue (the action list is exactly that key event) yet reports
needsInputSync = false, and no input sync is issued. -/
theorem arcan_refresh_translated_only_no_sync :
    (arcan_refresh (fun _ => 0) 640 480 dpyState0
      [Event.ioev ⟨DevKind.keyboard, 3, IOData.translated 3 true⟩]).1 = false
    ∧ (arcan_refresh (fun _ => 0) 640 480 dpyState0
        [Event.ioev ⟨DevKind.keyboard, 3, IOData.translated 3 true⟩]).2.2 =
      [Action.sendKeyQcode 0 true] := by
  constructor <;> rfl

/-- C1 (amended): a pump cycle reports needsInputSync = true exactly when
at least one recognized digital-button or analog-axis device event was
drained (translated-key events never set it, as the last conjunct states),
and the action trace of a cycle consists of the per-event actions — which
contain no input sync — followed by exactly one input sync at the end of
the cycle when needsInputSync is set, and none otherwise. -/
theorem arcan_refresh_sync_batched (xlate : Fin 256 → Nat) (cw ch : Nat)
    (st : DpyState) (events : List Event) :
    (arcan_refresh xlate cw ch st events).1 = events.any ev_handled
    ∧ (∃ pre, Action.inputSync ∉ pre
        ∧ (arcan_refresh xlate cw ch st events).2.2 =
            pre ++ (if events.any ev_handled then [Action.inputSync] else []))
    ∧ (∀ dk sub sc a,
        ev_handled (Event.ioev ⟨dk, sub, IOData.translated sc a⟩) = false) := by
  have hfst : (arcan_refresh xlate cw ch st events).1 = events.any ev_handled := by
    rw [arcan_refresh]
    simp only [refresh_loop_fst, Bool.false_or]
  refine ⟨hfst, ?_, ?_⟩
  · obtain ⟨tail, ht, hs⟩ := refresh_loop_acc xlate cw ch events false st []
    refine ⟨tail, hs, ?_⟩
    rw [arcan_refresh]
    simp only
    rw [ht, List.nil_append, refresh_loop_fst, Bool.false_or]
  · intro dk sub sc a
    cases dk <;> rfl

/-! ## Theorems: non-keyboard, non-mouse device events (C9) -/

/-- C9: a device event whose source device kind is neither keyboard nor
mouse is reported not-handled, the pressed-key table is returned
unchanged, and no action is queued. -/
theorem input_event_other_device (xlate : Fin 256 → Nat) (cw ch : Nat)
    (kbd : Fin 256 → Bool) (iev : IOEvent)
    (h1 : iev.devkind ≠ DevKind.keyboard) (h2 : iev.devkind ≠ DevKind.mouse) :
    input_event xlate cw ch kbd iev = (false, kbd, []) := by
  rw [input_event, if_pos ⟨h1, h2⟩]

/-- Witness for C9 at a concrete game-device button event. -/
theorem input_event_other_device_witness :
    input_event (fun _ => 0) 640 480 (fun _ => false)
      ⟨DevKind.gamedev, 1, IOData.digital true⟩ =
      (false, fun _ => false, []) :=
  input_event_other_device (fun _ => 0) 640 480 (fun _ => false)
    ⟨DevKind.gamedev, 1, IOData.digital true⟩ (by decide) (by decide)

/-! ## Theorems: reset command handling (C3, C10) -/

/-- C3 (code evaluated at the failing input): a Reset system event with
sub-kind 0 or 1 issues a shutdown request with guest-reset cause — not a
reset request, which never appears — while sub-kinds 2 and 3 issue
neither; every sub-kind ends with the full-frame dirty store and video
signal. -/
theorem system_event_reset_requests_shutdown :
    ((system_event (fun _ => 0) 640 480 dpyState0 ⟨TgtKind.reset, 0, 0⟩).1 =
      [Action.shutdownRequest ShutdownCause.guestReset,
       Action.setDirty 0 0 640 480, Action.signalVideo])
    ∧ ((system_event (fun _ => 0) 640 480 dpyState0 ⟨TgtKind.reset, 1, 0⟩).1 =
      [Action.shutdownRequest ShutdownCause.guestReset,
       Action.setDirty 0 0 640 480, Action.signalVideo])
    ∧ (Action.resetRequest ShutdownCause.guestReset ∉
        (system_event (fun _ => 0) 640 480 dpyState0 ⟨TgtKind.reset, 0, 0⟩).1)
    ∧ ((system_event (fun _ => 0) 640 480 dpyState0 ⟨TgtKind.reset, 2, 0⟩).1 =
      [Action.setDirty 0 0 640 480, Action.signalVideo])
    ∧ ((system_event (fun _ => 0) 640 480 dpyState0 ⟨TgtKind.reset, 3, 0⟩).1 =
      [Action.setDirty 0 0 640 480, Action.signalVideo]) := by
  refine ⟨by decide, by decide, by decide, by decide, by decide⟩

/-- C10: every Reset system event, whatever its sub-kind value, stores the
full-frame dirty rectangle (0, 0, w, h) and raises exactly one video
signal, as the final two actions of the handler; segment state is
untouched. -/
theorem system_event_reset_full_frame (xlate : Fin 256 → Nat) (cw ch : Nat)
    (st : DpyState) (iv0 : Int) (iv2 : Nat) :
    ∃ pre,
      (system_event xlate cw ch st ⟨TgtKind.reset, iv0, iv2⟩).1 =
        pre ++ [Action.setDirty 0 0 cw ch, Action.signalVideo]
      ∧ Action.signalVideo ∉ pre
      ∧ Action.setDirty 0 0 cw ch ∉ pre
      ∧ (system_event xlate cw ch st ⟨TgtKind.reset, iv0, iv2⟩).2 = st := by
  refine ⟨if iv0 = 0 ∨ iv0 = 1 then
      [Action.shutdownRequest ShutdownCause.guestReset] else [],
    rfl, ?_, ?_, rfl⟩ <;> split_ifs <;> simp

/-! ## Theorems: display hints (C7) -/

/-- C7: a display-hint event with the invisible bit (2) set and the
reserved bit (128) clear marks the segment hidden with refresh interval
500; one with both bits clear, received while hidden, restores the
visible state and the default interval; one with the reserved bit set
leaves the whole state — hidden flag, interval, pressed-key table —
unchanged and issues no action. -/
theorem system_event_displayhint_spec (xlate : Fin 256 → Nat) (cw ch : Nat)
    (st : DpyState) (iv0 : Int) (f : Nat) :
    (f &&& 128 = 0 → f &&& 2 ≠ 0 →
      ((system_event xlate cw ch st ⟨TgtKind.displayhint, iv0, f⟩).2.hidden = true
       ∧ (system_event xlate cw ch st ⟨TgtKind.displayhint, iv0, f⟩).2.interval = 500))
    ∧ (f &&& 128 = 0 → f &&& 2 = 0 → st.hidden = true →
      ((system_event xlate cw ch st ⟨TgtKind.displayhint, iv0, f⟩).2.hidden = false
       ∧ (system_event xlate cw ch st ⟨TgtKind.displayhint, iv0, f⟩).2.interval =
           GUI_REFRESH_INTERVAL_DEFAULT))
    ∧ (f &&& 128 ≠ 0 →
      system_event xlate cw ch st ⟨TgtKind.displayhint, iv0, f⟩ = ([], st)) := by
  refine ⟨?_, ?_, ?_⟩
  · intro h128 h2
    simp only [system_event, if_pos h128, if_pos h2]
    by_cases h4 : f &&& 4 ≠ 0
    · simp only [if_pos h4]
      refine ⟨?_, ?_⟩ <;> trivial
    · simp only [if_neg h4]
      refine ⟨?_, ?_⟩ <;> trivial
  · intro h128 h2 hh
    have h2n : ¬ f &&& 2 ≠ 0 := fun hc => hc h2
    simp only [system_event, if_pos h128, if_neg h2n, if_pos hh]
    by_cases h4 : f &&& 4 ≠ 0
    · simp only [if_pos h4]
      refine ⟨?_, ?_⟩ <;> trivial
    · simp only [if_neg h4]
      refine ⟨?_, ?_⟩ <;> trivial
  · intro h128
    simp only [system_event, if_neg h128]

/-- Witness for C7: flag word 2 hides a visible segment and widens the
interval to 500; flag word 0 on a hidden segment restores visibility and
the default interval; flag word 128 leaves a hidden segment fully
untouched. -/
theorem system_event_displayhint_spec_witness :
    ((system_event (fun _ => 0) 640 480 dpyState0 ⟨TgtKind.displayhint, 0, 2⟩).2.hidden = true
     ∧ (system_event (fun _ => 0) 640 480 dpyState0 ⟨TgtKind.displayhint, 0, 2⟩).2.interval = 500)
    ∧ ((system_event (fun _ => 0) 640 480 dpyStateHidden ⟨TgtKind.displayhint, 0, 0⟩).2.hidden = false
       ∧ (system_event (fun _ => 0) 640 480 dpyStateHidden ⟨TgtKind.displayhint, 0, 0⟩).2.interval =
           GUI_REFRESH_INTERVAL_DEFAULT)
    ∧ system_event (fun _ => 0) 640 480 dpyStateHidden ⟨TgtKind.displayhint, 0, 128⟩ =
        ([], dpyStateHidden) :=
  ⟨(system_event_displayhint_spec (fun _ => 0) 640 480 dpyState0 0 2).1
      (by decide) (by decide),
   (system_event_displayhint_spec (fun _ => 0) 640 480 dpyStateHidden 0 0).2.1
      (by decide) (by decide) rfl,
   (system_event_displayhint_spec (fun _ => 0) 640 480 dpyStateHidden 0 128).2.2
      (by decide)⟩

/-! ## Display initialization and segment enumeration (C2) -/

/-- The compile-time display limit: the arcan_ctx.dpy array has exactly
this many slots. -/
def ARCAN_DISPLAY_LIMIT : Nat := 4

/-- The console-enumeration loop of arcan_display_init.  The argument list
holds the graphic flags of consoles nd, nd+1, ... as reported by
qemu_console_lookup_by_index / qemu_console_is_graphic; a missing console
ends the loop.  Non-graphical consoles are skipped; a graphical console at
index nd first receives the write disp = &arcan_ctx.dpy[nd]; disp->index
= nd (recorded in the first component), then for nd > 0 the stub
wait_for_subseg returns 0 and the loop breaks, while for nd = 0 the
primary segment is bound and register_displaychangelistener is called
(recorded in the second component).  The loop has no bound check against
ARCAN_DISPLAY_LIMIT.  Returns (dpy-array indices written, indices bound
as displays, final n_dpy). -/
def init_go (nd : Nat) : List Bool → List Nat × List Nat × Nat
  | [] => ([], [], nd)
  | graphic :: rest =>
      if graphic = false then
        init_go (nd + 1) rest
      else if nd > 0 then
        ([nd], [], nd)
      else
        let r := init_go (nd + 1) rest
        (nd :: r.1, nd :: r.2.1, r.2.2)

/-- arcan_display_init restricted to its enumeration loop, from console
index 0. -/
def arcan_display_init_enum (consoles : List Bool) :
    List Nat × List Nat × Nat :=
  init_go 0 consoles

/-- C2 (code evaluated at the failing input): with five guest consoles of
which console 0 is graphical, consoles 1-3 are not, and console 4 is
graphical, the enumeration loop writes into the per-display segment array
at indices 0 and 4 — and index 4 is not strictly below
ARCAN_DISPLAY_LIMIT = 4, so the claimed bound on array writes fails even
though only one display is bound. -/
theorem arcan_display_init_oob_write :
    ((arcan_display_init_enum [true, false, false, false, true]).1 = [0, 4])
    ∧ ((arcan_display_init_enum [true, false, false, false, true]).2.1 = [0])
    ∧ ¬ (∀ i ∈ (arcan_display_init_enum [true, false, false, false, true]).1,
          i < ARCAN_DISPLAY_LIMIT) := by
  refine ⟨by decide, by decide, by decide⟩

end Arcan
